import Mathlib

/-!
Verification of the file-transfer session subsystem and the Request
response pattern of the xdg-desktop-portal broker, as a shallow embedding
of `src/document-portal/file-transfer.c` and of the handlers in
`src/src/actions.c`, `src/src/gnome-accounts.c`, `src/src/geolocation.c`.

External collaborators (GLib, D-Bus plumbing, the permission store, the
document store, the sandbox-aware path resolver) are modelled as explicit
parameters or oracles; the control flow of each embedded function follows
its C source line by line.
-/

set_option maxRecDepth 4096

namespace Portal

/-- Error codes that the file-transfer handlers can return to a caller.
`accessDenied` stands for `G_DBUS_ERROR_ACCESS_DENIED`, `notAllowed` for
`XDG_DESKTOP_PORTAL_ERROR_NOT_ALLOWED`, and `docError` for a `GError` set
by the external `document_add_full`. -/
inductive ErrCode
  | accessDenied
  | notAllowed
  | docError
deriving DecidableEq, Repr

/-- The reply a handler sends on its invocation.  `err` models
`g_dbus_method_invocation_return_error` with an explicit domain/code and
message; `gerror e` models `g_dbus_method_invocation_return_gerror` where
`e = none` means the `GError *` argument was NULL (GLib then logs a
critical warning and sends no reply at all). -/
inductive Reply (α : Type)
  | ok (v : α)
  | err (code : ErrCode) (msg : String)
  | gerror (e : Option ErrCode)
deriving DecidableEq, Repr

/-- The slice of `XdpAppInfo` the file-transfer code consults: the app id
(`xdp_app_info_get_id`) and whether the app is the unsandboxed host
(`xdp_app_info_is_host`). -/
structure XdpAppInfo where
  id : String
  isHost : Bool
deriving DecidableEq, Repr

/-- `FileTransfer` from file-transfer.c:46-56: the per-session state.  The
`GPtrArray *files` is a list of path strings; the mutex is a concurrency
artifact with no sequential content. -/
structure FileTransfer where
  files : List String
  writable : Bool
  autostop : Bool
  key : String
  sender : String
  appInfo : XdpAppInfo
deriving DecidableEq, Repr

/-- The global `transfers` hash table (file-transfer.c:92), keyed by the
session key string.  Keys are unique, as in a `GHashTable`. -/
abbrev Registry := List (String × FileTransfer)

/-- `lookup_transfer` (file-transfer.c:94-104). -/
def lookup_transfer (transfers : Registry) (key : String) : Option FileTransfer :=
  (transfers.find? (fun p => p.1 == key)).map Prod.snd

/-- `g_hash_table_steal (transfers, key)`: remove the entry for `key`. -/
def registry_steal (transfers : Registry) (key : String) : Registry :=
  transfers.filter (fun p => p.1 != key)

/-- `g_hash_table_insert (transfers, key, t)`: replaces any existing entry
for `key`, as `GHashTable` does. -/
def registry_insert (transfers : Registry) (key : String) (t : FileTransfer) : Registry :=
  (key, t) :: registry_steal transfers key

/-- `file_transfer_start` (file-transfer.c:106-134).  The fresh key that
the C code draws from `g_random_int` is passed in as a parameter. -/
def file_transfer_start (transfers : Registry) (app : XdpAppInfo) (sender : String)
    (writable autostop : Bool) (key : String) : Registry × FileTransfer :=
  let t : FileTransfer :=
    { files := [], writable := writable, autostop := autostop,
      key := key, sender := sender, appInfo := app }
  (registry_insert transfers key t, t)

/-- `file_transfer_stop` (file-transfer.c:146-158): steals the entry from
the registry; the free of the struct itself is deferred to an idle source
and has no effect on the registry. -/
def file_transfer_stop (transfers : Registry) (t : FileTransfer) : Registry :=
  registry_steal transfers t.key

/-- `file_transfer_add_files` (file-transfer.c:160-172): appends the given
paths at the end of the session's path list. -/
def file_transfer_add_files (t : FileTransfer) (paths : List String) : FileTransfer :=
  { t with files := t.files ++ paths }

/-- `DOCUMENT_PERMISSION_FLAGS_READ` (bit 0 of the document-portal
permission flags, from document-enums.h, not under src/). -/
def PERM_READ : Nat := 1

/-- `DOCUMENT_PERMISSION_FLAGS_WRITE` (bit 1). -/
def PERM_WRITE : Nat := 2

/-- The permission flags `file_transfer_execute` computes at
file-transfer.c:199-201: read, plus write when the session is writable. -/
def execute_perms (t : FileTransfer) : Nat :=
  PERM_READ ||| (if t.writable then PERM_WRITE else 0)

/-- `g_path_get_basename`: the last non-empty path component ("." for the
empty string, "/" for a path made of slashes only). -/
def g_path_get_basename (file : String) : String :=
  match ((file.splitOn "/").filter (fun s => s ≠ "")).getLast? with
  | some b => b
  | none => if file = "" then "." else "/"

/-- One call into the external document store, recording the arguments the
file-transfer code hands to `document_add_full` (file-transfer.c:215): the
files being registered, the permission flags, and the grantee app id. -/
structure DocCall where
  files : List String
  perms : Nat
  targetAppId : String
deriving DecidableEq, Repr

/-- `file_transfer_execute` (file-transfer.c:174-240).  The external
`document_add_full` is an oracle `docAdd` taking the file list, the
permission flags and the target app id, and returning either the per-file
document ids (empty id = file exempt from wrapping, returned unchanged) or
an error; the FUSE mountpoint is a parameter.  Alongside the result we
record the list of document-store calls performed. -/
def file_transfer_execute (t : FileTransfer) (target : XdpAppInfo)
    (docAdd : List String → Nat → String → Option (List String))
    (mountpoint : String) : Option (List String) × List DocCall :=
  if target.isHost then
    (some t.files, [])
  else
    let perms := execute_perms t
    let call : DocCall := ⟨t.files, perms, target.id⟩
    match docAdd t.files perms target.id with
    | none => (none, [call])
    | some ids =>
        (some ((t.files.zip ids).map (fun fi =>
          if fi.2 = "" then fi.1
          else mountpoint ++ "/" ++ fi.2 ++ "/" ++ g_path_get_basename fi.1)),
         [call])

/-- A value in a `a{sv}` options dict, as far as the file-transfer code
inspects it: a boolean, or something of any other variant type. -/
inductive GVal
  | b (v : Bool)
  | other
deriving DecidableEq, Repr

/-- `g_variant_lookup (options, key, "b", &v)`: succeeds exactly when the
dict has an entry under `key` holding a boolean. -/
def lookup_b (options : List (String × GVal)) (key : String) : Option Bool :=
  match options.lookup key with
  | some (.b v) => some v
  | _ => none

/-- `start_transfer` (file-transfer.c:242-265): a missing (or non-boolean)
"writable" option defaults to false, a missing "autostop" option defaults
to true; a fresh session is registered and its key returned. -/
def start_transfer (transfers : Registry) (options : List (String × GVal))
    (app : XdpAppInfo) (sender key : String) : Registry × Reply String :=
  let writable := (lookup_b options "writable").getD false
  let autostop := (lookup_b options "autostop").getD true
  let st := file_transfer_start transfers app sender writable autostop key
  (st.1, .ok st.2.key)

/-- The fd the loop body of `add_files` obtains for a handle index
(file-transfer.c:315-320): `fds[fd_id]` when the index is in range, else
the initial -1. -/
def fd_of (fds : List Int) (fd_id : Nat) : Int :=
  if fd_id < fds.length then fds.getD fd_id (-1) else (-1)

/-- The two early-return failure cases of the `add_files` descriptor
loop: `nullGError` is the fd == -1 branch at file-transfer.c:322-326,
which replies through `g_dbus_method_invocation_return_gerror` with the
function's local `GError *error` — still NULL at that point; `cantExport`
is the not-allowed "Cant export file" reply at file-transfer.c:329-336. -/
inductive AddErr
  | nullGError
  | cantExport
deriving DecidableEq, Repr

/-- The loop of `add_files` (file-transfer.c:313-339) over the handle
indices of the payload.  `resolve` models the external sandbox-aware
`xdp_app_info_get_path_for_fd`, returning the resolved path and whether
the descriptor is open for writing, or `none` on resolution failure.
On the first failing descriptor the whole call errors out; the paths of a
fully successful run are returned for appending afterwards. -/
def add_files_loop (writable : Bool) (fds : List Int)
    (resolve : Int → Option (String × Bool)) :
    List Nat → Except AddErr (List String)
  | [] => .ok []
  | fd_id :: rest =>
    if fd_of fds fd_id = -1 then
      .error .nullGError
    else
      match resolve (fd_of fds fd_id) with
      | none => .error .cantExport
      | some pw =>
        if writable && !pw.2 then
          .error .cantExport
        else
          match add_files_loop writable fds resolve rest with
          | .error e => .error e
          | .ok paths => .ok (pw.1 :: paths)

/-- The reply each loop failure produces on the invocation. -/
def add_err_reply : AddErr → Reply Unit
  | .nullGError => .gerror none
  | .cantExport => .err .notAllowed "Cant export file"

/-- The failure condition of file-transfer.c:329 for one descriptor:
path resolution fails, or the session is writable and the descriptor is
not open for writing. -/
def resolution_fails (writable : Bool) (resolve : Int → Option (String × Bool))
    (fd : Int) : Bool :=
  match resolve fd with
  | none => true
  | some pw => writable && !pw.2

/-- `add_files` (file-transfer.c:267-346): unknown key or a caller whose
connection name differs from the session owner's is rejected with
access-denied "Invalid transfer"; otherwise the descriptors are resolved
one by one and the paths appended to the session only after every one of
them resolved. -/
def add_files (transfers : Registry) (key sender : String)
    (fd_ids : List Nat) (fds : List Int)
    (resolve : Int → Option (String × Bool)) : Registry × Reply Unit :=
  match lookup_transfer transfers key with
  | none => (transfers, .err .accessDenied "Invalid transfer")
  | some t =>
    if t.sender = sender then
      match add_files_loop t.writable fds resolve fd_ids with
      | .error e => (transfers, add_err_reply e)
      | .ok paths =>
          (registry_insert transfers key (file_transfer_add_files t paths), .ok ())
    else
      (transfers, .err .accessDenied "Invalid transfer")

/-- `retrieve_files` (file-transfer.c:349-381): unknown key is rejected
with access-denied "Invalid transfer"; for a known key (no ownership
check) the transfer is executed for the calling app, and — success or
failure — when the session has autostop set it is deregistered before the
handler returns. -/
def retrieve_files (transfers : Registry) (key : String) (target : XdpAppInfo)
    (docAdd : List String → Nat → String → Option (List String))
    (mountpoint : String) : Registry × Reply (List String) × List DocCall :=
  match lookup_transfer transfers key with
  | none => (transfers, .err .accessDenied "Invalid transfer", [])
  | some t =>
    let ex := file_transfer_execute t target docAdd mountpoint
    let reply : Reply (List String) :=
      match ex.1 with
      | none => .gerror (some .docError)
      | some files => .ok files
    let transfers2 := if t.autostop then file_transfer_stop transfers t else transfers
    (transfers2, reply, ex.2)

/-- `stop_transfer` (file-transfer.c:383-408): unknown key is rejected
with access-denied "Invalid transfer"; a known key is deregistered.  The
invocation's sender is available but never consulted — unlike `add_files`
there is no ownership check.  The parameter is kept to make that explicit:
the result does not depend on it. -/
def stop_transfer (transfers : Registry) (key : String) (sender : String) :
    Registry × Reply Unit :=
  match lookup_transfer transfers key with
  | none => (transfers, .err .accessDenied "Invalid transfer")
  | some t => (file_transfer_stop transfers t, .ok ())

end Portal

namespace Req

/-- The observable response state of one `Request` (request.h:30-41): its
`exported` flag, and the response codes emitted on it so far by
`xdp_request_emit_response` (the emission trace is the verification
instrument; the C struct keeps no such list). -/
structure ReqState where
  exported : Bool
  responses : List Nat
deriving DecidableEq, Repr

/-- The response step of actions.c:318-328 and of gnome-accounts.c:80-86
(`send_response_in_thread_func`): under the request's lock, emit the
response only if the request is still exported, and unexport it in the
same step. -/
def respond_and_unexport (s : ReqState) (code : Nat) : ReqState :=
  if s.exported then { exported := false, responses := s.responses ++ [code] } else s

/-- The response step of geolocation.c:335-336
(`handle_track_in_thread_func`, label `out`): under the request's lock,
emit the response only if the request is still exported — but do *not*
unexport it (the request stays alive to carry LocationUpdated signals). -/
def geo_respond (s : ReqState) (code : Nat) : ReqState :=
  if s.exported then { s with responses := s.responses ++ [code] } else s

/-- Modelled from the spec: the Request engine's `close` operation lives
in request.c, which is not under src/.  Per spec section 4.2, `close`
removes the Request, "emitting a 'cancelled' response only if still
exported" (cancelled = code 1), and unexports it. -/
def spec_close (s : ReqState) : ReqState :=
  if s.exported then { exported := false, responses := s.responses ++ [1] } else s

/-- An operation later performed on a Request: a respond through the
emit-and-unexport pattern of actions.c/gnome-accounts.c, or a
caller-initiated close. -/
inductive RespondEvent
  | respond (code : Nat)
  | close
deriving DecidableEq, Repr

/-- Run a sequence of respond/close operations on a Request, each one
using the guarded emit-and-unexport step. -/
def run_events : ReqState → List RespondEvent → ReqState
  | s, [] => s
  | s, .respond code :: rest => run_events (respond_and_unexport s code) rest
  | s, .close :: rest => run_events (spec_close s) rest

end Req

namespace Actions

/-- `Permission` (actions.c:67). -/
inductive Permission
  | UNSET
  | NO
  | YES
  | ASK
deriving DecidableEq, Repr

/-- The parsing part of `get_permission` (actions.c:69-122), applied to
the permission strings the external store holds for the
(app, application::action) cell: `none` models both a store lookup
failure and an absent entry (both return UNSET); a stored list is valid
only when it has exactly one element reading "yes", "no" or "ask". -/
def parse_permission (stored : Option (List String)) : Permission :=
  match stored with
  | none => .UNSET
  | some perms =>
    if perms.length ≠ 1 then .UNSET
    else if perms.getD 0 "" = "yes" then .YES
    else if perms.getD 0 "" = "no" then .NO
    else if perms.getD 0 "" = "ask" then .ASK
    else .UNSET

/-- The value `set_permission` (actions.c:124-159) writes to the store
cell: a one-element string list; an UNSET argument is refused with a
warning and writes nothing. -/
def set_permission_value : Permission → Option (List String)
  | .ASK => some ["ask"]
  | .YES => some ["yes"]
  | .NO => some ["no"]
  | .UNSET => none

/-- The observable outcome of one run of
`handle_activate_action_in_thread` for a fixed (app, application, action)
triple: whether the access dialog backend was driven, the store cell
afterwards, how many store writes were performed, and the response code
emitted on the Request. -/
structure ActionsRun where
  dialogCalled : Bool
  store : Option (List String)
  storeWrites : Nat
  response : Nat
deriving DecidableEq, Repr

/-- `handle_activate_action_in_thread` (actions.c:179-328), with the
externals as oracles: `store` is the permission-store cell for the
triple; `dialog` is the outcome of the `AccessDialog` backend call
(`none` = the proxy call failed: a warning is logged and the local
`access_response` keeps its initial value 2); `activateOk` says whether
the `ActivateAction` call on the target application succeeds (on failure
a warning is logged and the response becomes 2, on success 0). -/
def handle_activate_action_in_thread (store : Option (List String))
    (dialog : Option Nat) (activateOk : Bool) : ActionsRun :=
  let permission := parse_permission store
  if permission = .ASK ∨ permission = .UNSET then
    let access_response := match dialog with
      | none => 2
      | some r => r
    let allowed := access_response = 0
    let sw :=
      if permission = .UNSET then
        match set_permission_value (if allowed then .YES else .NO) with
        | some v => (some v, 1)
        | none => (store, 0)
      else (store, 0)
    let response := if allowed then (if activateOk then 0 else 2) else 1
    ⟨true, sw.1, sw.2, response⟩
  else
    let allowed := permission = .YES
    let response := if allowed then (if activateOk then 0 else 2) else 1
    ⟨false, store, 0, response⟩

end Actions

namespace Accounts

/-- The response-code computation shared by `get_accounts_done`,
`add_account_done` and `ensure_credentials_done`
(gnome-accounts.c:91-117, 172-198, 255-281): `response` starts at 2 and
is overwritten only when the backend finish call succeeds; on failure a
warning is logged and 2 stands. -/
def backend_done_response (result : Option Nat) : Nat :=
  match result with
  | none => 2
  | some r => r

end Accounts

namespace Geo

/-- The observable outcome of one run of `handle_track_in_thread_func`
(geolocation.c:220-337) for one app: whether the access dialog backend
was driven, the `set_geolocation_permissions` writes performed (allowed
flag and timestamp argument), and the response code emitted. -/
structure GeoRun where
  dialogCalled : Bool
  storeWrites : List (Bool × Int)
  response : Nat
deriving DecidableEq, Repr

/-- `handle_track_in_thread_func` (geolocation.c:220-337).  `stored` is
the result of `get_geolocation_permissions` for the app (`none` = lookup
failed / nothing stored / bad format); `dialog` is the outcome of the
`AccessDialog` backend call (`none` = proxy failure: warning logged and
`goto out` with response 2); `now` is `g_get_monotonic_time`.  Note that
the `set_geolocation_permissions` call at geolocation.c:316 sits outside
the dialog branch and runs on *every* pass that reaches it, also when a
stored decision was found and no dialog was shown. -/
def handle_track_in_thread (stored : Option (Bool × Int))
    (dialog : Option Nat) (now : Int) : GeoRun :=
  match stored with
  | some al =>
      let writes := [(al.1, if al.1 then now else al.2)]
      ⟨false, writes, if al.1 then 0 else 1⟩
  | none =>
      match dialog with
      | none => ⟨true, [], 2⟩
      | some r =>
          let allowed := r == 0
          let writes := [(allowed, if allowed then now else 0)]
          ⟨true, writes, if allowed then 0 else 1⟩

end Geo

section Fixtures

/-- A session owned by connection "conn1" with autostop off, as concrete
counterexample input. -/
def fixtureC1 : Portal.FileTransfer :=
  { files := ["f"], writable := false, autostop := false,
    key := "k", sender := "conn1", appInfo := ⟨"org.app.A", false⟩ }

/-- An empty non-writable session owned by "conn1", as concrete witness
input. -/
def fixtureC2 : Portal.FileTransfer :=
  { files := [], writable := false, autostop := true,
    key := "k", sender := "conn1", appInfo := ⟨"org.app.A", false⟩ }

/-- A session with autostop on, as concrete witness input. -/
def fixtureC3 : Portal.FileTransfer :=
  { files := ["f"], writable := false, autostop := true,
    key := "k", sender := "conn1", appInfo := ⟨"org.app.A", false⟩ }

/-- A non-writable session holding one file, as concrete witness input. -/
def fixtureC7 : Portal.FileTransfer :=
  { files := ["/home/u/doc.txt"], writable := false, autostop := true,
    key := "k", sender := "conn1", appInfo := ⟨"org.app.A", false⟩ }

/-- An empty session owned by "conn1", as concrete failing input: an
`AddFiles` payload naming handle 0 with no descriptors attached. -/
def fixtureC9 : Portal.FileTransfer :=
  { files := [], writable := false, autostop := true,
    key := "k9", sender := "conn1", appInfo := ⟨"org.app.B", false⟩ }

end Fixtures

namespace Portal

theorem lookup_registry_steal (transfers : Registry) (key : String) :
    lookup_transfer (registry_steal transfers key) key = none := by
  have h : (registry_steal transfers key).find? (fun p => p.1 == key) = none := by
    rw [List.find?_eq_none]
    intro x hx
    rcases List.mem_filter.mp hx with ⟨_, hk⟩
    simpa using hk
  simp [lookup_transfer, h]

theorem lookup_registry_insert (transfers : Registry) (key : String) (t : FileTransfer) :
    lookup_transfer (registry_insert transfers key t) key = some t := by
  unfold lookup_transfer registry_insert
  rw [List.find?_cons_of_pos _ (by simp)]
  rfl

theorem add_files_loop_ok (writable : Bool) (fds : List Int)
    (resolve : Int → Option (String × Bool)) (fd_ids : List Nat) (paths : List String)
    (h : add_files_loop writable fds resolve fd_ids = .ok paths) :
    ∀ i ∈ fd_ids, resolution_fails writable resolve (fd_of fds i) = false := by
  induction fd_ids generalizing paths with
  | nil => intro i hi; cases hi
  | cons j rest ih =>
    intro i hi
    rw [add_files_loop] at h
    by_cases hfd : fd_of fds j = -1
    · rw [if_pos hfd] at h; cases h
    · rw [if_neg hfd] at h
      cases hres : resolve (fd_of fds j) with
      | none => simp only [hres] at h; cases h
      | some pw =>
        simp only [hres] at h
        cases hw : (writable && !pw.2) with
        | true => simp only [hw, if_true] at h; cases h
        | false =>
          simp only [hw, Bool.false_eq_true, if_false] at h
          cases hrec : add_files_loop writable fds resolve rest with
          | error e => simp only [hrec] at h; cases h
          | ok ps =>
            rcases List.mem_cons.mp hi with rfl | hmem
            · simp [resolution_fails, hres, hw]
            · exact ih ps hrec i hmem

theorem add_files_loop_fails (writable : Bool) (fds : List Int)
    (resolve : Int → Option (String × Bool)) (fd_ids : List Nat)
    (h : ∃ i ∈ fd_ids, resolution_fails writable resolve (fd_of fds i) = true) :
    ∀ paths, add_files_loop writable fds resolve fd_ids ≠ .ok paths := by
  intro paths hok
  rcases h with ⟨i, hi, hf⟩
  have := add_files_loop_ok writable fds resolve fd_ids paths hok i hi
  rw [this] at hf
  cases hf

end Portal

namespace Req

theorem run_events_length (evs : List RespondEvent) (s : ReqState) :
    ((run_events s evs).responses).length ≤
      s.responses.length + (if s.exported then 1 else 0) := by
  induction evs generalizing s with
  | nil =>
    cases h : s.exported <;> simp [run_events]
  | cons e rest ih =>
    cases e with
    | respond c =>
      refine le_trans (ih (respond_and_unexport s c)) ?_
      cases h : s.exported <;> simp [respond_and_unexport, h]
    | close =>
      refine le_trans (ih (spec_close s)) ?_
      cases h : s.exported <;> simp [spec_close, h]

end Req

/-- C1: the claim states that `stop` performs the same owner-connection
check as `add_files`, so that a non-owner connection can never deregister
a session, and that a foreign-owned key fails for `add_files`,
`retrieve_files` and `stop` alike.  Counterexample: on a registry holding
the session `fixtureC1` owned by connection "conn1", a `StopTransfer`
call from connection "conn2" succeeds and removes the session from the
registry. -/
theorem C1_counterexample :
    (Portal.stop_transfer [("k", fixtureC1)] "k" "conn2").2 = .ok () ∧
    Portal.lookup_transfer (Portal.stop_transfer [("k", fixtureC1)] "k" "conn2").1 "k"
      = none := by
  constructor <;> rfl

/-- C1 (amended): a call supplying an unknown key fails with the
identical access-denied error for `add_files`, `retrieve_files` and
`stop` and leaves the registry unchanged; a key owned by a different
connection is rejected that same way by `add_files` only — `stop`
performs no owner-connection check and deregisters the session for any
caller that knows the key. -/
theorem C1_amended_theorem (transfers : Portal.Registry) (key sender : String)
    (fd_ids : List Nat) (fds : List Int) (resolve : Int → Option (String × Bool))
    (target : Portal.XdpAppInfo)
    (docAdd : List String → Nat → String → Option (List String)) (mount : String) :
    (Portal.lookup_transfer transfers key = none →
      Portal.add_files transfers key sender fd_ids fds resolve
        = (transfers, .err .accessDenied "Invalid transfer") ∧
      Portal.retrieve_files transfers key target docAdd mount
        = (transfers, .err .accessDenied "Invalid transfer", []) ∧
      Portal.stop_transfer transfers key sender
        = (transfers, .err .accessDenied "Invalid transfer")) ∧
    (∀ t, Portal.lookup_transfer transfers key = some t → t.sender ≠ sender →
      Portal.add_files transfers key sender fd_ids fds resolve
        = (transfers, .err .accessDenied "Invalid transfer")) ∧
    (∀ t, Portal.lookup_transfer transfers key = some t →
      Portal.stop_transfer transfers key sender
        = (Portal.registry_steal transfers t.key, .ok ())) := by
  refine ⟨fun hnone => ?_, fun t ht hs => ?_, fun t ht => ?_⟩
  · exact ⟨by simp [Portal.add_files, hnone],
           by simp [Portal.retrieve_files, hnone],
           by simp [Portal.stop_transfer, hnone]⟩
  · simp [Portal.add_files, ht, hs]
  · simp [Portal.stop_transfer, ht, Portal.file_transfer_stop]

/-- C1 amendment witness at a concrete input: on a registry holding only
`fixtureC1`, an `add_files` call from the non-owner connection "conn2" is
rejected with the access-denied "Invalid transfer" error and the registry
is unchanged. -/
theorem C1_amended_witness :
    Portal.add_files [("k", fixtureC1)] "k" "conn2" [] [] (fun _ => none)
      = ([("k", fixtureC1)], .err .accessDenied "Invalid transfer") :=
  (C1_amended_theorem [("k", fixtureC1)] "k" "conn2" [] [] (fun _ => none)
      ⟨"", true⟩ (fun _ _ _ => none) "/mnt").2.1 fixtureC1 rfl (by decide)

/-- C3: for a session with autostop=true, immediately after any
`retrieve_files` call on it — whatever the transfer outcome, since the
conclusion holds for every target app and every document-store oracle —
the key no longer resolves; with autostop=false it remains resolvable
(until an explicit stop, which always removes it). -/
theorem C3_theorem (transfers : Portal.Registry) (key : String)
    (target : Portal.XdpAppInfo)
    (docAdd : List String → Nat → String → Option (List String)) (mount : String)
    (t : Portal.FileTransfer) (sender : String)
    (hl : Portal.lookup_transfer transfers key = some t)
    (hk : t.key = key) :
    (t.autostop = true →
      Portal.lookup_transfer
        (Portal.retrieve_files transfers key target docAdd mount).1 key = none) ∧
    (t.autostop = false →
      Portal.lookup_transfer
        (Portal.retrieve_files transfers key target docAdd mount).1 key = some t) ∧
    Portal.lookup_transfer (Portal.stop_transfer transfers key sender).1 key = none := by
  refine ⟨fun ha => ?_, fun ha => ?_, ?_⟩
  · simp [Portal.retrieve_files, hl, ha, Portal.file_transfer_stop, hk,
          Portal.lookup_registry_steal]
  · simp [Portal.retrieve_files, hl, ha, hl]
  · simp [Portal.stop_transfer, hl, Portal.file_transfer_stop, hk,
          Portal.lookup_registry_steal]

/-- C3 witness at a concrete input: on a registry holding `fixtureC3`
(autostop on), after a host `RetrieveFiles` the key "k" no longer
resolves. -/
theorem C3_witness :
    Portal.lookup_transfer
      (Portal.retrieve_files [("k", fixtureC3)] "k" ⟨"", true⟩
        (fun _ _ _ => none) "/mnt").1 "k" = none :=
  (C3_theorem [("k", fixtureC3)] "k" ⟨"", true⟩ (fun _ _ _ => none) "/mnt"
      fixtureC3 "conn1" rfl rfl).1 rfl

/-- C9: the claim states that an out-of-range descriptor index makes the
call fail synchronously with a well-formed access-denied or
invalid-argument error and without a broker fault.  Evaluating the
embedded `add_files` at the failing input — the owner calls `AddFiles`
with payload handle index 0 while no descriptor is attached — shows the
code instead replies through `g_dbus_method_invocation_return_gerror`
with a NULL `GError` (the local `error` of file-transfer.c:279 is never
assigned before line 324): GLib then logs a critical warning — a broker
fault — and sends no reply to the caller at all.  The session registry is
at least left unchanged. -/
theorem C9_eval :
    Portal.add_files [("k9", fixtureC9)] "k9" "conn1" [0] [] (fun _ => none)
      = ([("k9", fixtureC9)], .gerror none) := by
  rfl

/-- C10: a `StartTransfer` options dict without a "writable" entry yields
a session with writable=false, and one without an "autostop" entry yields
autostop=true — and with that default the session is deregistered right
after the first `RetrieveFiles` call on it. -/
theorem C10_theorem (transfers : Portal.Registry) (options : List (String × Portal.GVal))
    (app : Portal.XdpAppInfo) (sender key : String) (target : Portal.XdpAppInfo)
    (docAdd : List String → Nat → String → Option (List String)) (mount : String)
    (hw : Portal.lookup_b options "writable" = none)
    (ha : Portal.lookup_b options "autostop" = none) :
    Portal.lookup_transfer (Portal.start_transfer transfers options app sender key).1 key
      = some { files := [], writable := false, autostop := true,
               key := key, sender := sender, appInfo := app } ∧
    Portal.lookup_transfer
      (Portal.retrieve_files (Portal.start_transfer transfers options app sender key).1
        key target docAdd mount).1 key = none := by
  have hstart : Portal.lookup_transfer
      (Portal.start_transfer transfers options app sender key).1 key
      = some { files := [], writable := false, autostop := true,
               key := key, sender := sender, appInfo := app } := by
    simp [Portal.start_transfer, Portal.file_transfer_start, hw, ha,
          Portal.lookup_registry_insert]
  refine ⟨hstart, ?_⟩
  simp [Portal.retrieve_files, hstart, Portal.file_transfer_stop,
        Portal.lookup_registry_steal]

/-- C10 witness at a concrete input: an options dict carrying only an
unrelated non-boolean entry defaults to writable=false, autostop=true. -/
theorem C10_witness :
    Portal.lookup_transfer
      (Portal.start_transfer [] [("other", Portal.GVal.other)] ⟨"org.app.A", false⟩
        "conn1" "k").1 "k"
      = some { files := [], writable := false, autostop := true, key := "k",
               sender := "conn1", appInfo := ⟨"org.app.A", false⟩ } :=
  (C10_theorem [] [("other", Portal.GVal.other)] ⟨"org.app.A", false⟩ "conn1" "k"
      ⟨"", true⟩ (fun _ _ _ => none) "/mnt" rfl rfl).1

/-- C2: for an `add_files` call on a session the caller owns, if any
supplied descriptor fails path resolution, or the session is writable and
the descriptor is not open for writing, the whole call returns an error
and the registry — hence the session's path list — is exactly unchanged;
the paths are appended, in one step, only when every descriptor resolved. -/
theorem C2_theorem (transfers : Portal.Registry) (key sender : String)
    (fd_ids : List Nat) (fds : List Int) (resolve : Int → Option (String × Bool))
    (t : Portal.FileTransfer)
    (hl : Portal.lookup_transfer transfers key = some t)
    (hs : t.sender = sender) :
    ((Portal.add_files transfers key sender fd_ids fds resolve).2 ≠ .ok () →
      (Portal.add_files transfers key sender fd_ids fds resolve).1 = transfers) ∧
    ((∃ i ∈ fd_ids,
        Portal.resolution_fails t.writable resolve (Portal.fd_of fds i) = true) →
      (Portal.add_files transfers key sender fd_ids fds resolve).2 ≠ .ok ()) ∧
    (∀ paths, Portal.add_files_loop t.writable fds resolve fd_ids = .ok paths →
      Portal.add_files transfers key sender fd_ids fds resolve
        = (Portal.registry_insert transfers key
            (Portal.file_transfer_add_files t paths), .ok ())) := by
  simp only [Portal.add_files, hl, hs, if_true]
  cases hloop : Portal.add_files_loop t.writable fds resolve fd_ids with
  | error e =>
    refine ⟨fun _ => rfl, fun _ => ?_, fun paths hp => ?_⟩
    · cases e <;> simp [Portal.add_err_reply]
    · exact Except.noConfusion hp
  | ok paths =>
    refine ⟨fun hne => absurd rfl hne, fun hex => ?_, fun ps hp => ?_⟩
    · exact absurd hloop (Portal.add_files_loop_fails t.writable fds resolve fd_ids hex paths)
    · cases hp
      rfl

/-- C2 witness at a concrete input: on a registry holding `fixtureC2`
(owned by "conn1"), an owner `add_files` whose single descriptor fails
path resolution returns a non-ok reply — and, by the theorem's first
conjunct, the registry stays unchanged. -/
theorem C2_witness :
    (Portal.add_files [("k", fixtureC2)] "k" "conn1" [0] [7] (fun _ => none)).2
        ≠ .ok () ∧
    (Portal.add_files [("k", fixtureC2)] "k" "conn1" [0] [7] (fun _ => none)).1
        = [("k", fixtureC2)] := by
  have h := C2_theorem [("k", fixtureC2)] "k" "conn1" [0] [7] (fun _ => none)
    fixtureC2 rfl rfl
  have hfail : (Portal.add_files [("k", fixtureC2)] "k" "conn1" [0] [7]
      (fun _ => none)).2 ≠ .ok () :=
    h.2.1 ⟨0, List.mem_singleton.mpr rfl, rfl⟩
  exact ⟨hfail, h.1 hfail⟩

/-- C7: on a session started with writable=false, `add_files` accepts a
descriptor open read-write; `file_transfer_execute` for a non-host target
performs exactly one document-store registration, carrying read
permission only; and in general the write bit of the registered
permissions equals the session's writable flag. -/
theorem C7_theorem (transfers : Portal.Registry) (key sender : String)
    (t : Portal.FileTransfer) (fd_id : Nat) (fds : List Int)
    (resolve : Int → Option (String × Bool)) (path : String)
    (target : Portal.XdpAppInfo)
    (docAdd : List String → Nat → String → Option (List String)) (mount : String)
    (hl : Portal.lookup_transfer transfers key = some t)
    (hs : t.sender = sender)
    (hw : t.writable = false)
    (hfd : Portal.fd_of fds fd_id ≠ -1)
    (hres : resolve (Portal.fd_of fds fd_id) = some (path, true))
    (hnh : target.isHost = false) :
    (Portal.add_files transfers key sender [fd_id] fds resolve).2 = .ok () ∧
    (Portal.file_transfer_execute t target docAdd mount).2
      = [⟨t.files, Portal.PERM_READ, target.id⟩] ∧
    (∀ t2 : Portal.FileTransfer,
      (Portal.execute_perms t2).testBit 1 = t2.writable) := by
  refine ⟨?_, ?_, ?_⟩
  · have hloop : Portal.add_files_loop t.writable fds resolve [fd_id] = .ok [path] := by
      rw [Portal.add_files_loop, if_neg hfd, hres]
      simp [hw, Portal.add_files_loop]
    simp [Portal.add_files, hl, hs, hloop]
  · have hp : Portal.execute_perms t = Portal.PERM_READ := by
      simp [Portal.execute_perms, hw]
    simp only [Portal.file_transfer_execute, hnh, Bool.false_eq_true, if_false, hp]
    cases docAdd t.files Portal.PERM_READ target.id <;> rfl
  · intro t2
    cases h2 : t2.writable <;>
      simp only [Portal.execute_perms, h2, Portal.PERM_READ, Portal.PERM_WRITE,
        Bool.false_eq_true, if_false, if_true] <;> decide

/-- C7 witness at a concrete input: on `fixtureC7` (writable=false), the
owner adds a read-write-opened descriptor successfully, and the execute
step for the non-host app "org.app.B" registers the file with permission
flags `PERM_READ` (no write bit). -/
theorem C7_witness :
    (Portal.add_files [("k", fixtureC7)] "k" "conn1" [0] [4]
        (fun _ => some ("/home/u/doc.txt", true))).2 = .ok () ∧
    (Portal.file_transfer_execute fixtureC7 ⟨"org.app.B", false⟩
        (fun _ _ _ => some ["id1"]) "/mnt").2
      = [⟨["/home/u/doc.txt"], Portal.PERM_READ, "org.app.B"⟩] := by
  have h := C7_theorem [("k", fixtureC7)] "k" "conn1" fixtureC7 0 [4]
    (fun _ => some ("/home/u/doc.txt", true)) "/home/u/doc.txt" ⟨"org.app.B", false⟩
    (fun _ _ _ => some ["id1"]) "/mnt" rfl rfl rfl (by decide) rfl rfl
  exact ⟨h.1, h.2.1⟩

/-- C8: starting a session, adding files through an `add_files` whose
descriptor loop succeeds with paths [f1, f2], then retrieving as the
trusted host returns exactly [f1, f2], unmodified and in insertion
order. -/
theorem C8_theorem (transfers : Portal.Registry) (options : List (String × Portal.GVal))
    (app : Portal.XdpAppInfo) (sender key f1 f2 : String)
    (fd_ids : List Nat) (fds : List Int) (resolve : Int → Option (String × Bool))
    (host : Portal.XdpAppInfo)
    (docAdd : List String → Nat → String → Option (List String)) (mount : String)
    (hhost : host.isHost = true)
    (hloop : Portal.add_files_loop ((Portal.lookup_b options "writable").getD false)
        fds resolve fd_ids = .ok [f1, f2]) :
    (Portal.add_files (Portal.start_transfer transfers options app sender key).1
        key sender fd_ids fds resolve).2 = .ok () ∧
    (Portal.retrieve_files
        (Portal.add_files (Portal.start_transfer transfers options app sender key).1
          key sender fd_ids fds resolve).1
        key host docAdd mount).2.1 = .ok [f1, f2] := by
  have hstart : Portal.lookup_transfer
      (Portal.start_transfer transfers options app sender key).1 key
      = some { files := [], writable := (Portal.lookup_b options "writable").getD false,
               autostop := (Portal.lookup_b options "autostop").getD true,
               key := key, sender := sender, appInfo := app } := by
    simp [Portal.start_transfer, Portal.file_transfer_start,
          Portal.lookup_registry_insert]
  have hadd : Portal.add_files (Portal.start_transfer transfers options app sender key).1
      key sender fd_ids fds resolve
      = (Portal.registry_insert (Portal.start_transfer transfers options app sender key).1
          key { files := [f1, f2],
                writable := (Portal.lookup_b options "writable").getD false,
                autostop := (Portal.lookup_b options "autostop").getD true,
                key := key, sender := sender, appInfo := app }, .ok ()) := by
    simp [Portal.add_files, hstart, hloop, Portal.file_transfer_add_files]
  refine ⟨by rw [hadd], ?_⟩
  rw [hadd]
  have hl2 := Portal.lookup_registry_insert
    (Portal.start_transfer transfers options app sender key).1 key
    { files := [f1, f2], writable := (Portal.lookup_b options "writable").getD false,
      autostop := (Portal.lookup_b options "autostop").getD true,
      key := key, sender := sender, appInfo := app }
  simp [Portal.retrieve_files, hl2, Portal.file_transfer_execute, hhost]

/-- C8 witness at a concrete input: start, add ["/a", "/b"], then a host
retrieval returns exactly ["/a", "/b"] in order. -/
theorem C8_witness :
    (Portal.retrieve_files
        (Portal.add_files (Portal.start_transfer [] [] ⟨"org.app.A", false⟩
            "conn1" "k").1 "k" "conn1" [0, 1] [3, 4]
          (fun fd => if fd = 3 then some ("/a", true)
                     else if fd = 4 then some ("/b", true) else none)).1
        "k" ⟨"", true⟩ (fun _ _ _ => none) "/mnt").2.1 = .ok ["/a", "/b"] :=
  (C8_theorem [] [] ⟨"org.app.A", false⟩ "conn1" "k" "/a" "/b" [0, 1] [3, 4]
      (fun fd => if fd = 3 then some ("/a", true)
                 else if fd = 4 then some ("/b", true) else none)
      ⟨"", true⟩ (fun _ _ _ => none) "/mnt" rfl (by rfl)).2

/-- C4: the claim states that every handler emits a response only while
the Request is still exported and unexports it in the same locked step,
so that nothing further is ever emitted.  Counterexample: the geolocation
handler's response step (geolocation.c:335-336) emits while exported but
does not unexport, so on a fresh exported Request it leaves `exported`
true — and a subsequent close (which per the spec emits "cancelled" when
still exported) produces a second response on the same Request. -/
theorem C4_counterexample :
    (Req.geo_respond ⟨true, []⟩ 0).exported = true ∧
    ((Req.spec_close (Req.geo_respond ⟨true, []⟩ 0)).responses) = [0, 1] := by
  constructor <;> rfl

/-- C4 (amended): for every Request whose responses all go through the
emit-only-while-exported-and-unexport-in-the-same-locked-step pattern of
actions.c:318-328 and gnome-accounts.c:80-86 — closes included — at most
one response is ever emitted over its whole lifetime, whatever the
sequence of respond and close operations; the geolocation handler alone
emits while exported without unexporting, so a later close can emit a
second response there. -/
theorem C4_amended_theorem (e : Bool) (evs : List Req.RespondEvent) :
    ((Req.run_events ⟨e, []⟩ evs).responses).length ≤ 1 := by
  refine le_trans (Req.run_events_length evs ⟨e, []⟩) ?_
  cases e <;> norm_num

/-- C5: the claim states that once a decision is stored, later calls
bypass the dialog and perform no further write to the permission store.
Counterexample: the geolocation handler with a stored allow decision
(allowed=true, last-used 5) bypasses the dialog but still performs a
permission-store write (geolocation.c:316), refreshing the entry with the
current timestamp. -/
theorem C5_counterexample :
    (Geo.handle_track_in_thread (some (true, 5)) (some 0) 100).dialogCalled = false ∧
    (Geo.handle_track_in_thread (some (true, 5)) (some 0) 100).storeWrites
      = [(true, 100)] := by
  constructor <;> rfl

/-- C5 (amended): for the actions portal the claim holds as stated — on
an unset (app, application, action) decision the first call drives the
dialog and persists the resulting allow-or-deny decision exactly once,
and every later call with the same triple reads that stored decision,
bypasses the dialog, and writes nothing further; the geolocation portal
also bypasses the dialog once a decision is stored, but performs a
permission-store write on every call, refreshing the stored entry. -/
theorem C5_amended_theorem (store : Option (List String)) (d1 d2 : Option Nat)
    (a1 a2 : Bool) (al : Bool × Int) (d : Option Nat) (now : Int)
    (h : Actions.parse_permission store = .UNSET) :
    ((Actions.handle_activate_action_in_thread store d1 a1).dialogCalled = true ∧
     (Actions.handle_activate_action_in_thread store d1 a1).storeWrites = 1) ∧
    (Actions.parse_permission
        (Actions.handle_activate_action_in_thread store d1 a1).store = .YES ∨
     Actions.parse_permission
        (Actions.handle_activate_action_in_thread store d1 a1).store = .NO) ∧
    ((Actions.handle_activate_action_in_thread
        (Actions.handle_activate_action_in_thread store d1 a1).store d2 a2).dialogCalled
        = false ∧
     (Actions.handle_activate_action_in_thread
        (Actions.handle_activate_action_in_thread store d1 a1).store d2 a2).storeWrites
        = 0) ∧
    ((Geo.handle_track_in_thread (some al) d now).dialogCalled = false ∧
     (Geo.handle_track_in_thread (some al) d now).storeWrites.length = 1) := by
  have hrun1 : Actions.handle_activate_action_in_thread store d1 a1
      = ⟨true,
         some [if (match d1 with | none => 2 | some r => r) = 0 then "yes" else "no"],
         1,
         if (match d1 with | none => 2 | some r => r) = 0
           then (if a1 then 0 else 2) else 1⟩ := by
    by_cases hd : (match d1 with | none => 2 | some r => r) = 0 <;>
      simp [Actions.handle_activate_action_in_thread, h, hd,
            Actions.set_permission_value]
  refine ⟨⟨by rw [hrun1], by rw [hrun1]⟩, ?_, ?_, ⟨rfl, rfl⟩⟩
  · rw [hrun1]
    by_cases hd : (match d1 with | none => 2 | some r => r) = 0 <;>
      simp [Actions.parse_permission, hd]
  · rw [hrun1]
    by_cases hd : (match d1 with | none => 2 | some r => r) = 0 <;>
      simp [Actions.handle_activate_action_in_thread, Actions.parse_permission, hd]

/-- C5 amendment witness at a concrete input: with nothing stored, the
dialog backend granting, and activation succeeding, the first actions
call drives the dialog and writes once, and the immediate second call
bypasses the dialog and writes nothing. -/
theorem C5_amended_witness :
    (Actions.handle_activate_action_in_thread none (some 0) true).storeWrites = 1 ∧
    (Actions.handle_activate_action_in_thread
        (Actions.handle_activate_action_in_thread none (some 0) true).store
        (some 0) true).dialogCalled = false :=
  have h := C5_amended_theorem none (some 0) (some 0) true true (true, 0) (some 0) 0 rfl
  ⟨h.1.2, h.2.2.1.1⟩

/-- C6: the claim states that a failed backend proxy call during the
handling of a Request always completes that Request with response code 2.
Counterexample: in the actions portal with no stored decision, a failure
of the `AccessDialog` backend call (the warning is logged, the local
access code keeps its initial 2) is treated as a denial and the Request
completes with response code 1 (cancelled), not 2. -/
theorem C6_counterexample :
    (Actions.handle_activate_action_in_thread none none true).dialogCalled = true ∧
    (Actions.handle_activate_action_in_thread none none true).response = 1 := by
  constructor <;> rfl

/-- C6 (amended): backend failures are logged warnings, never fatal; the
gnome-accounts backend failures complete the Request with code 2, as do a
failed `ActivateAction` call on the target application and a failed
geolocation access dialog — but in the actions portal a failed
`AccessDialog` backend call is treated as a denial and completes the
Request with code 1 (cancelled). -/
theorem C6_amended_theorem (store : Option (List String))
    (h : Actions.parse_permission store = .YES) :
    Accounts.backend_done_response none = 2 ∧
    (Actions.handle_activate_action_in_thread store none false).response = 2 ∧
    (Geo.handle_track_in_thread none none 0).response = 2 ∧
    (∀ s a, Actions.parse_permission s = .UNSET ∨ Actions.parse_permission s = .ASK →
      (Actions.handle_activate_action_in_thread s none a).response = 1) := by
  refine ⟨rfl, ?_, rfl, ?_⟩
  · simp [Actions.handle_activate_action_in_thread, h]
  · intro s a hs
    have hne : ¬(Actions.parse_permission s = .YES) := by
      rcases hs with hs | hs <;> simp [hs]
    rcases hs with hs | hs <;>
      simp [Actions.handle_activate_action_in_thread, hs, Actions.set_permission_value]

/-- C6 amendment witness at a concrete input: with a stored "yes"
decision and a failing `ActivateAction` backend call, the actions Request
completes with code 2; and with nothing stored, a failing dialog call
completes it with code 1. -/
theorem C6_amended_witness :
    (Actions.handle_activate_action_in_thread (some ["yes"]) none false).response = 2 ∧
    (Actions.handle_activate_action_in_thread none none true).response = 1 :=
  have h := C6_amended_theorem (some ["yes"]) rfl
  ⟨h.2.1, h.2.2.2 none true (Or.inl rfl)⟩
